import Mathlib

/-!
Verification of the background document processor
(`maestro_backend/services/background_document_processor.py`).

The development is a shallow embedding of the worker code:

* Python dict values become `PyVal`; dicts become association lists
  (`List (String × PyVal)`) read through `List.lookup`, which matches
  Python lookup semantics (later-merged entries shadow earlier ones).
* The observable actions of a run (database writes, progress pushes,
  file copies, chunking, embedding, vector-index writes, cleanup)
  become an `Event` trace, produced in the order the source performs
  them.
* External collaborators (the converter, the metadata extractor, the
  chunker, the embedder, the vector store, the stored document row)
  become fields of an `Env`: functions returning `Except String _`,
  where `Except.error e` models the call raising a Python exception
  with message `e`.
* `crud.get_next_queued_document` and `crud.update_document_status`
  live outside the staged sources (only their call sites are staged);
  they are modelled from the spec where noted.
-/

/-- Values of the Python dictionaries the processor manipulates.
`PyVal.none` is Python `None` (the value `dict.get` returns for a
missing key). -/
inductive PyVal where
  | none
  | str (s : String)
  | int (n : Int)
  | strList (xs : List String)
  | bool (b : Bool)
deriving DecidableEq, Repr

/-- Python truthiness of a `PyVal`, as used by `if extracted_metadata:`,
`if not markdown_content:` and the `x or y` idiom. -/
def PyVal.truthy : PyVal → Bool
  | PyVal.none => false
  | PyVal.str s => !(s == "")
  | PyVal.int n => !(n == 0)
  | PyVal.strList xs => !xs.isEmpty
  | PyVal.bool b => b

/-- Python `a or b` on values: `a` when truthy, otherwise `b`. -/
def pyOr (a b : PyVal) : PyVal := if a.truthy then a else b

/-- A Python dict, read through `List.lookup` (first match wins). -/
abbrev PyDict := List (String × PyVal)

/-- Python `d.get(k)`: the stored value, or `None` when absent. -/
def dictGet (d : PyDict) (k : String) : PyVal :=
  (List.lookup k d).getD PyVal.none

/-- Python `{**base, **upd}` and `base.update(upd)`: the entries of
`upd` win on common keys.  With first-match `List.lookup`, listing
`upd` first gives exactly that lookup semantics. -/
def pyUpdate (base upd : PyDict) : PyDict := upd ++ base

/-- Payload of one progress push to the internal endpoint
(`_send_progress_update_sync`).  `ptype` is the payload `type` field,
`targetId` the `doc_id` it carries. -/
structure PushPayload where
  ptype : String
  targetId : String
  progress : Nat
  status : String
  error : Option String
  timestamp : String
  userId : Nat
deriving DecidableEq, Repr

/-- Observable actions of the worker, in source order.

* `docStatus` is a `crud.update_document_status` call (committed by the
  caller): lines 130, 136 and 513 of the source.  `chunkCount` is the
  optional `chunk_count` keyword of the line-513 call.
* `jobRecord` is the `DocumentProcessingJob` row update inside
  `_update_job_progress_sync` (lines 317-326).
* `docRecord` is the document row update inside
  `_update_document_progress_sync` (lines 281-287).
* `push` is the outbound progress POST (`_send_progress_update_sync`).
* `copyFile` is the `shutil.copy2` staging copy (line 400).
* `saveMarkdown` and `saveMetadata` are the side-artifact writes
  (lines 441-451).
* `chunked` is the `processor.chunker.chunk` call result (line 463).
* `embedChunks` is `processor.embedder.embed_chunks` (line 474).
* `addChunks` is `processor.vector_store.add_chunks` (line 481).
* `setDocMeta` is the finalize metadata merge commit (lines 549-570).
* `cleanup` is `cleanup_failed_document_improved` (line 142). -/
inductive Event where
  | docStatus (docId : String) (status : String) (progress : Nat) (chunkCount : Option Nat)
  | jobRecord (jobId : Nat) (progress : Nat) (status : String) (error : Option String)
  | docRecord (docId : String) (progress : Nat) (status : String) (error : Option String)
  | push (userId : Nat) (payload : PushPayload)
  | copyFile (src : String) (dst : String)
  | saveMarkdown (path : String) (content : String)
  | saveMetadata (path : String) (meta : PyDict)
  | chunked (count : Nat)
  | embedChunks (count : Nat)
  | addChunks (docId : String) (count : Nat) (batchSize : Nat)
  | setDocMeta (docId : String) (meta : PyDict) (chunkCount : Nat)
  | cleanup (docId : String)
deriving DecidableEq, Repr

/-- The closed format category chosen at materialization time
(lines 385-396): pdf, Word document, or Markdown. -/
inductive DocFormat where
  | pdf
  | word
  | markdown
deriving DecidableEq, Repr

/-- External collaborators and ambient state of one run.  Function
fields model calls into the shared processor; `Except.error e` models
the call raising an exception whose text is `e`.

* `stagedExists` is `target_path.exists()` (line 398); when true,
  `stagedContent` is the content already at the canonical staged path.
* `uploadContent` is the content of the uploaded file at
  `job.file_path` that `shutil.copy2` would stage.
* `extractHeaderFooter` models `processor._extract_header_footer_text`
  (pdf branch, line 410); `extractInitialTextOther` models
  `document_converter.extract_initial_text_for_metadata` (line 412).
* `extractMeta` models `processor.metadata_extractor.extract`; an
  empty dict models both a `None` and a `{}` (falsy) result.
* `convert` models the format-appropriate conversion of the staged
  file content to markdown (lines 423-431).
* `chunkText` models `processor.chunker.chunk`, returning the number
  of chunks produced.
* `embedOutcome` and `addOutcome` model `embed_chunks` and
  `add_chunks`; `hasEmbedder` and `hasVectorStore` are the line-472
  guard `processor.embedder and processor.vector_store`.
* `jobRecordExists` and `docRecordExists` say whether the
  `DocumentProcessingJob` row and the document row are found by the
  two progress updaters (their `if job:` and `if document:` guards).
* `document` is the row `crud.get_document` returns at finalize time
  (line 521), carrying its existing metadata map (`metadata_ or {}`).
* `now` stands for `datetime.utcnow().isoformat()`. -/
structure Env where
  stagedExists : Bool
  stagedContent : String
  uploadContent : String
  extractHeaderFooter : String → Except String String
  extractInitialTextOther : String → Except String String
  extractMeta : String → Except String PyDict
  convert : DocFormat → String → Except String String
  chunkText : String → PyDict → Except String Nat
  embedOutcome : Nat → Except String Unit
  addOutcome : Nat → Except String Unit
  hasEmbedder : Bool
  hasVectorStore : Bool
  jobRecordExists : Bool
  docRecordExists : Bool
  document : Option PyDict
  now : String

/-- The `ProcessingJob` dataclass (lines 31-39).  The `uuid.uuid4()`
job identifier is modelled as a `Nat` handed out by the worker loop, a
fresh value per selection (uuid4 collisions are not modelled);
`created_at` is omitted (never read). -/
structure ProcessingJob where
  jobId : Nat
  docId : String
  userId : Nat
  filePath : String
  originalFilename : String
deriving DecidableEq, Repr

/-- A queued document row as `_process_next_document` reads it
(id, user_id, file_path, filename). -/
structure DocRow where
  id : String
  userId : Nat
  filePath : String
  filename : String
deriving DecidableEq, Repr

/-- Result of one run: the returned boolean of
`_process_document_sync`, the event trace, the failure text captured
at the job boundary, the merged metadata written to the document at
finalize (when the run succeeded and the document row was found), and
the run's `final_metadata` dict. -/
structure RunResult where
  success : Bool
  trace : List Event
  errorMsg : Option String
  finalMeta : Option PyDict
  extractedMeta : Option PyDict
deriving Repr

/-- Python `s.endswith(t)`. -/
def pyEndsWith (s t : String) : Bool := t.data.isSuffixOf s.data

/-- Python `s.lower()`, restricted to the ASCII case Lean's
`Char.toLower` covers (filenames in the claims are ASCII). -/
def pyLower (s : String) : String := String.mk (s.data.map Char.toLower)

/-- The extension of a filename as line 378 computes it:
`original_filename.lower().split('.')[-1]`, i.e. the characters of the
lowered name after its last dot (the whole lowered name when it has no
dot).  The reversed `takeWhile` form is definitionally that last
segment. -/
def fileExt (name : String) : String :=
  String.mk (((pyLower name).data.reverse.takeWhile (fun c => !(c == '.'))).reverse)

/-- The extension dispatch of lines 385-396.  The source repeats the
same `original_filename.lower().endswith(...)` tests at lines 409-412
and 423-433 on the unchanged filename, so the three sites agree and
are collapsed into this one dispatch; the line-433 re-raise is
unreachable (line 396 already raised). -/
def dispatchFormat (name : String) : Option DocFormat :=
  if pyEndsWith (pyLower name) ".pdf" then some DocFormat.pdf
  else if pyEndsWith (pyLower name) ".docx" || pyEndsWith (pyLower name) ".doc" then
    some DocFormat.word
  else if pyEndsWith (pyLower name) ".md" || pyEndsWith (pyLower name) ".markdown" then
    some DocFormat.markdown
  else none

/-- The canonical staged path `{doc_id}_{original_filename}` in the
category directory of the format (lines 386-394). -/
def targetPathOf (fmt : DocFormat) (docId name : String) : String :=
  match fmt with
  | DocFormat.pdf => "/app/ai_researcher/data/raw_pdfs/" ++ docId ++ "_" ++ name
  | DocFormat.word =>
      "/app/ai_researcher/data/raw_pdfs/word_documents/" ++ docId ++ "_" ++ name
  | DocFormat.markdown =>
      "/app/ai_researcher/data/raw_pdfs/markdown_files/" ++ docId ++ "_" ++ name

/-- The file content every later stage reads: the pre-existing staged
file when one exists, otherwise the newly uploaded file that line 400
copies to the staged path. -/
def effectiveContent (env : Env) : String :=
  if env.stagedExists then env.stagedContent else env.uploadContent

/-- The initial-text extraction of lines 409-412: the pdf header and
footer heuristic for pdf files, the generic converter for the rest,
both reading the staged file. -/
def extractInitialText (env : Env) (fmt : DocFormat) : Except String String :=
  if fmt = DocFormat.pdf then env.extractHeaderFooter (effectiveContent env)
  else env.extractInitialTextOther (effectiveContent env)

/-- Events of `_send_progress_update_sync` (lines 256-272): one
best-effort POST; delivery failure is swallowed, so the attempt itself
is the event. -/
def sendProgressUpdateSync (userId : Nat) (payload : PushPayload) : List Event :=
  [Event.push userId payload]

/-- Events of `_update_job_progress_sync` (lines 305-343): the job row
update when the row is found.  The send at line 338 is commented out
in the source, so no push is emitted.  The `started_at` and
`completed_at` timestamps are not modelled (never read by the
worker). -/
def updateJobProgressSync (env : Env) (jobId : Nat) (progress : Nat) (status : String)
    (errorMessage : Option String) : List Event :=
  if env.jobRecordExists then [Event.jobRecord jobId progress status errorMessage] else []

/-- Events of `_update_document_progress_sync` (lines 274-303): the
document row update when the row is found, then the push, which is
attempted whether or not the row was found. -/
def updateDocumentProgressSync (env : Env) (docId : String) (userId : Nat) (progress : Nat)
    (status : String) (errorMessage : Option String) : List Event :=
  (if env.docRecordExists then [Event.docRecord docId progress status errorMessage] else [])
    ++ sendProgressUpdateSync userId
        { ptype := "document_progress", targetId := docId, progress := progress,
          status := status, error := errorMessage, timestamp := env.now, userId := userId }

/-- The `except` handler of `_process_document_sync` (lines 579-588):
capture the error as `Processing failed: {e}`, reset both progress
records to 0 with status `"failed"`, return `False`. -/
def pipelineFail (env : Env) (job : ProcessingJob) (tr : List Event) (e : String) : RunResult :=
  let msg := "Processing failed: " ++ e
  { success := false,
    trace := tr ++ updateJobProgressSync env job.jobId 0 "failed" (some msg)
      ++ updateDocumentProgressSync env job.docId job.userId 0 "failed" (some msg),
    errorMsg := some msg, finalMeta := Option.none, extractedMeta := Option.none }

/-- The `formatted_metadata` dict of lines 530-543, built from the
run's `final_metadata` (line 524 reads
`processing_result['extracted_metadata']`, assigned `final_metadata`
at line 499). -/
def formattedMetadata (em : PyDict) (jobId : Nat) (now : String)
    (chunksGenerated chunksAdded : Nat) : PyDict :=
  [("title", dictGet em "title"),
   ("authors", dictGet em "authors"),
   ("publication_year", pyOr (dictGet em "publication_year") (dictGet em "year")),
   ("journal_or_source", pyOr (dictGet em "journal_or_source") (dictGet em "journal")),
   ("abstract", dictGet em "abstract"),
   ("doi", dictGet em "doi"),
   ("keywords", dictGet em "keywords"),
   ("processed_at", PyVal.str now),
   ("processing_job_id", PyVal.str (toString jobId)),
   ("status", PyVal.str "completed"),
   ("chunks_generated", PyVal.int chunksGenerated),
   ("chunks_added_to_vector_store", PyVal.int chunksAdded)]

/-- The success tail of `_process_document_sync` (lines 494-577):
the 100% checkpoint on both progress views, the line-513
`update_document_status` with the chunk count, then the finalize
metadata merge when `crud.get_document` finds the row (lines 519-575;
an exception or a missing row there is swallowed and the run still
returns `True`).  The top-level `title`/`authors` column mirror of
lines 560-564 is not modelled (the metadata map is the contract). -/
def finishRun (env : Env) (job : ProcessingJob) (tr : List Event) (finalMetadata : PyDict)
    (chunksGenerated chunksAdded : Nat) : RunResult :=
  let tr1 := tr ++ updateJobProgressSync env job.jobId 100 "completed" Option.none
    ++ updateDocumentProgressSync env job.docId job.userId 100 "completed" Option.none
    ++ [Event.docStatus job.docId "completed" 100 (some chunksAdded)]
  match env.document with
  | Option.none =>
      { success := true, trace := tr1, errorMsg := Option.none,
        finalMeta := Option.none, extractedMeta := some finalMetadata }
  | some existing =>
      let formatted :=
        formattedMetadata finalMetadata job.jobId env.now chunksGenerated chunksAdded
      let merged := pyUpdate existing formatted
      { success := true, trace := tr1 ++ [Event.setDocMeta job.docId merged chunksAdded],
        errorMsg := Option.none, finalMeta := some merged,
        extractedMeta := some finalMetadata }

/-- Shallow embedding of `_process_document_sync` (lines 345-592),
stage by stage in source order.  User-settings resolution (lines
358-375) only configures the per-job metadata extractor and degrades
to an empty configuration on error; it is absorbed into
`env.extractMeta` and emits no event. -/
def processDocumentSync (env : Env) (job : ProcessingJob) : RunResult :=
  let tr2 := updateJobProgressSync env job.jobId 0 "running" Option.none
    ++ updateDocumentProgressSync env job.docId job.userId 0 "processing" Option.none
    ++ updateJobProgressSync env job.jobId 10 "running" Option.none
    ++ updateJobProgressSync env job.jobId 30 "running" Option.none
    ++ updateDocumentProgressSync env job.docId job.userId 30 "processing" Option.none
  match dispatchFormat job.originalFilename with
  | Option.none =>
      pipelineFail env job tr2 ("Unsupported file format: " ++ job.originalFilename)
  | some fmt =>
    let tr3 :=
      if env.stagedExists then tr2
      else tr2 ++ [Event.copyFile job.filePath (targetPathOf fmt job.docId job.originalFilename)]
    let tr4 := tr3 ++ updateJobProgressSync env job.jobId 50 "running" Option.none
      ++ updateDocumentProgressSync env job.docId job.userId 50 "processing" Option.none
    match extractInitialText env fmt with
    | Except.error e => pipelineFail env job tr4 e
    | Except.ok initialText =>
    match env.extractMeta initialText with
    | Except.error e => pipelineFail env job tr4 e
    | Except.ok extracted =>
    let baseMeta : PyDict :=
      [("doc_id", PyVal.str job.docId), ("original_filename", PyVal.str job.originalFilename)]
    let finalMetadata := if extracted.isEmpty then baseMeta else pyUpdate baseMeta extracted
    match env.convert fmt (effectiveContent env) with
    | Except.error e => pipelineFail env job tr4 e
    | Except.ok markdownContent =>
    if markdownContent = "" then
      pipelineFail env job tr4
        ("Document processing produced empty markdown content for " ++ job.originalFilename)
    else
    let tr5 := tr4 ++ [Event.saveMarkdown (job.docId ++ ".md") markdownContent,
                       Event.saveMetadata (job.docId ++ ".json") finalMetadata]
    let tr6 := tr5 ++ updateJobProgressSync env job.jobId 70 "running" Option.none
      ++ updateDocumentProgressSync env job.docId job.userId 70 "processing" Option.none
    match env.chunkText markdownContent finalMetadata with
    | Except.error e => pipelineFail env job tr6 e
    | Except.ok nChunks =>
    let tr7 := tr6 ++ [Event.chunked nChunks]
    let tr8 := tr7 ++ updateJobProgressSync env job.jobId 90 "running" Option.none
      ++ updateDocumentProgressSync env job.docId job.userId 90 "processing" Option.none
    if env.hasEmbedder && env.hasVectorStore && !(nChunks == 0) then
      match env.embedOutcome nChunks with
      | Except.error e => pipelineFail env job tr8 e
      | Except.ok _ =>
      let tr9 := tr8 ++ [Event.embedChunks nChunks]
      match env.addOutcome nChunks with
      | Except.error e => pipelineFail env job tr9 e
      | Except.ok _ =>
        finishRun env job (tr9 ++ [Event.addChunks job.docId nChunks 50])
          finalMetadata nChunks nChunks
    else
      finishRun env job tr8 finalMetadata nChunks 0

/-- Shallow embedding of one selected-document iteration of
`_process_next_document` (lines 109-168).  `crud.update_document_status`
is not among the staged sources; modelled from the spec: it writes the
given status and progress percentage to the document row (the spec's
Document carries "a processing status ... an upload/progress
percentage"), and line 131 commits the claim before processing.  The
final write at line 136 passes `final_status` and `100` whatever the
outcome; cleanup runs on failure (line 142).  `jobOf` is the
`ProcessingJob` construction of lines 119-126. -/
def jobOf (jobId : Nat) (doc : DocRow) : ProcessingJob :=
  { jobId := jobId, docId := doc.id, userId := doc.userId,
    filePath := doc.filePath, originalFilename := doc.filename }

/-- One selected-document iteration (see the modelling notes on
`jobOf`): the committed claim write, the synchronous run, the final
status write and, on failure, cleanup. -/
def processNextDocument (env : Env) (jobId : Nat) (doc : DocRow) : RunResult :=
  let job := jobOf jobId doc
  let r := processDocumentSync env job
  let finalStatus := if r.success then "completed" else "failed"
  { success := r.success,
    trace := Event.docStatus doc.id "processing" 0 Option.none :: r.trace
      ++ [Event.docStatus doc.id finalStatus 100 Option.none]
      ++ (if r.success then [] else [Event.cleanup doc.id]),
    errorMsg := r.errorMsg, finalMeta := r.finalMeta, extractedMeta := r.extractedMeta }

/-- The drain cycle of the worker loop (`while self._process_next_document():
pass`, line 89): one fully sequential run per queued document.
`crud.get_next_queued_document` is not among the staged sources;
modelled from the spec ("read the oldest eligible document"): the
eligible documents form a list consumed in order.  Fresh uuid4 job
identifiers are modelled by the strictly increasing counter.  `envOf`
gives each selection its ambient state. -/
def drainQueue (envOf : Nat → Env) (jobCounter : Nat) : List DocRow → List Event
  | [] => []
  | d :: ds =>
      (processNextDocument (envOf jobCounter) jobCounter d).trace
        ++ drainQueue envOf (jobCounter + 1) ds

/-! ## Observations over traces -/

/-- The status and progress a trace event writes to a durable record
(document status write, job progress row, document progress row), or
`none` for events that write no progress. -/
def eventProgress : Event → Option (String × Nat)
  | Event.docStatus _ s p _ => some (s, p)
  | Event.jobRecord _ p s _ => some (s, p)
  | Event.docRecord _ p s _ => some (s, p)
  | _ => Option.none

/-- The (status, progress) pairs a trace writes, in order. -/
def statusProgressWrites (es : List Event) : List (String × Nat) :=
  es.filterMap eventProgress

/-- The progress values a trace writes, in order. -/
def progressValues (es : List Event) : List Nat :=
  (statusProgressWrites es).map Prod.snd

/-- One step of the running-jobs accounting: a job progress write with
status `"running"` marks the job running; one with a terminal status
(`"completed"` or `"failed"`) ends it; every other event is neutral. -/
def runStep (acc : List Nat) : Event → List Nat
  | Event.jobRecord j _ s _ =>
      if s = "running" then (if j ∈ acc then acc else acc ++ [j])
      else if s = "completed" ∨ s = "failed" then acc.erase j
      else acc
  | _ => acc

/-- The jobs observably in the running state after a trace: marked
running by a job progress write and not yet terminally written. -/
def runningJobs (es : List Event) : List Nat := es.foldl runStep []

/-- Whether an event is a vector-index write. -/
def isIndexWrite : Event → Bool
  | Event.addChunks _ _ _ => true
  | _ => false

/-- Whether an event is an embedding computation. -/
def isEmbedComputation : Event → Bool
  | Event.embedChunks _ => true
  | _ => false

/-- Whether an event belongs to the pipeline stages of a run, as
opposed to the selector's own status writes and the cleanup handler. -/
def isStageEvent : Event → Bool
  | Event.docStatus _ _ _ _ => false
  | Event.cleanup _ => false
  | _ => true

/-- Whether an event belongs to a stage after conversion: the
side-artifact writes, chunking, embedding, index writes, or the
finalize metadata merge. -/
def isPostConversionEvent : Event → Bool
  | Event.saveMarkdown _ _ => true
  | Event.saveMetadata _ _ => true
  | Event.chunked _ => true
  | Event.embedChunks _ => true
  | Event.addChunks _ _ _ => true
  | Event.setDocMeta _ _ _ => true
  | _ => false

/-- Whether an event is a document progress row write for `docId` at
progress `p`. -/
def docWriteAtEvent (docId : String) (p : Nat) : Event → Bool
  | Event.docRecord d q _ _ => d == docId && q == p
  | _ => false

/-- Whether a trace has a document progress row write at a progress value. -/
def hasDocWriteAt (es : List Event) (docId : String) (p : Nat) : Bool :=
  es.any (docWriteAtEvent docId p)

/-- Whether an event is a progress push at progress `p`. -/
def pushAtEvent (p : Nat) : Event → Bool
  | Event.push _ pl => pl.progress == p
  | _ => false

/-- Whether a trace has a progress push at a progress value. -/
def hasPushAt (es : List Event) (p : Nat) : Bool := es.any (pushAtEvent p)

/-- The progress value of a job progress row write, if the event is one. -/
def jobProgressOf : Event → Option Nat
  | Event.jobRecord _ p _ _ => some p
  | _ => Option.none

/-- The progress values of the job progress row writes of a trace. -/
def jobWriteProgresses (es : List Event) : List Nat := es.filterMap jobProgressOf

/-- Whether every job progress row write of a trace names the job `c`. -/
def jobIdsOk (c : Nat) (es : List Event) : Bool :=
  es.all fun e => match e with
    | Event.jobRecord j _ _ _ => j == c
    | _ => true

/-- Whether an event is either not a push or a document-scoped push
(payload type `"document_progress"`). -/
def pushOkEvent : Event → Bool := fun e => match e with
  | Event.push _ pl => pl.ptype == "document_progress"
  | _ => true

/-- Whether every push of a trace is document-scoped
(payload type `"document_progress"`). -/
def pushesDocTyped (es : List Event) : Bool := es.all pushOkEvent

/-- Whether an event stays within the materialize-input stage: not an
embedding computation, vector-index write or post-conversion event. -/
def noLaterEvent : Event → Bool :=
  fun e => !(isEmbedComputation e || isIndexWrite e || isPostConversionEvent e)

/-- Whether a trace stays within the materialize-input stage. -/
def noLaterStage (es : List Event) : Bool := es.all noLaterEvent

/-- Whether every job progress row write of a trace names job `c`
(the event-level test of `jobIdsOk`). -/
def jobIdOkEvent (c : Nat) : Event → Bool := fun e => match e with
  | Event.jobRecord j _ _ _ => j == c
  | _ => true

/-- The fixed key set of `formattedMetadata` (lines 530-543), in
order. -/
def formattedKeys : List String :=
  ["title", "authors", "publication_year", "journal_or_source", "abstract", "doi",
   "keywords", "processed_at", "processing_job_id", "status", "chunks_generated",
   "chunks_added_to_vector_store"]

/-- Whether an event is not a staging copy. -/
def noCopyEvent : Event → Bool
  | Event.copyFile _ _ => false
  | _ => true

/-! ## Concrete environments for witnesses and counterexamples -/

/-- A fully healthy environment: every external call succeeds, both
progress records exist, and the stored document carries a file hash
and an old title. -/
def envAllOk : Env :=
  { stagedExists := false, stagedContent := "staged", uploadContent := "upload",
    extractHeaderFooter := fun _ => Except.ok "head",
    extractInitialTextOther := fun _ => Except.ok "init",
    extractMeta := fun _ => Except.ok [("title", PyVal.str "T")],
    convert := fun _ s => Except.ok ("md:" ++ s),
    chunkText := fun _ _ => Except.ok 2,
    embedOutcome := fun _ => Except.ok (), addOutcome := fun _ => Except.ok (),
    hasEmbedder := true, hasVectorStore := true,
    jobRecordExists := true, docRecordExists := true,
    document := some [("file_hash", PyVal.str "h123"), ("title", PyVal.str "Old")],
    now := "2026-01-01T00:00:00" }

/-- Like `envAllOk` but conversion yields empty normalized text. -/
def envEmptyMd : Env := { envAllOk with convert := fun _ _ => Except.ok "" }

/-- Like `envAllOk` but a file already sits at the staged path. -/
def envStaged : Env := { envAllOk with stagedExists := true, stagedContent := "S" }

/-- A queued pdf document row. -/
def docPdf : DocRow := { id := "d1", userId := 7, filePath := "/up/a.pdf", filename := "a.pdf" }

/-- A queued document row with an unsupported extension. -/
def docBadExt : DocRow :=
  { id := "d2", userId := 7, filePath := "/up/a.xyz", filename := "a.xyz" }

/-- The first document-scoped push of a run of `envAllOk` on `docPdf`. -/
def pushD1At0 : PushPayload :=
  { ptype := "document_progress", targetId := "d1", progress := 0, status := "processing",
    error := Option.none, timestamp := "2026-01-01T00:00:00", userId := 7 }

/-! ## Basic reductions -/

@[simp] theorem runStep_docStatus (acc : List Nat) (d s : String) (p : Nat) (c : Option Nat) :
    runStep acc (Event.docStatus d s p c) = acc := rfl

@[simp] theorem runStep_docRecord (acc : List Nat) (d : String) (p : Nat) (s : String)
    (m : Option String) : runStep acc (Event.docRecord d p s m) = acc := rfl

@[simp] theorem runStep_push (acc : List Nat) (u : Nat) (pl : PushPayload) :
    runStep acc (Event.push u pl) = acc := rfl

@[simp] theorem runStep_copyFile (acc : List Nat) (s d : String) :
    runStep acc (Event.copyFile s d) = acc := rfl

@[simp] theorem runStep_saveMarkdown (acc : List Nat) (p c : String) :
    runStep acc (Event.saveMarkdown p c) = acc := rfl

@[simp] theorem runStep_saveMetadata (acc : List Nat) (p : String) (m : PyDict) :
    runStep acc (Event.saveMetadata p m) = acc := rfl

@[simp] theorem runStep_chunked (acc : List Nat) (n : Nat) :
    runStep acc (Event.chunked n) = acc := rfl

@[simp] theorem runStep_embedChunks (acc : List Nat) (n : Nat) :
    runStep acc (Event.embedChunks n) = acc := rfl

@[simp] theorem runStep_addChunks (acc : List Nat) (d : String) (n b : Nat) :
    runStep acc (Event.addChunks d n b) = acc := rfl

@[simp] theorem runStep_setDocMeta (acc : List Nat) (d : String) (m : PyDict) (n : Nat) :
    runStep acc (Event.setDocMeta d m n) = acc := rfl

@[simp] theorem runStep_cleanup (acc : List Nat) (d : String) :
    runStep acc (Event.cleanup d) = acc := rfl

@[simp] theorem runStep_jobRecord_running (acc : List Nat) (j p : Nat) (m : Option String) :
    runStep acc (Event.jobRecord j p "running" m) = if j ∈ acc then acc else acc ++ [j] := by
  simp [runStep]

@[simp] theorem runStep_jobRecord_completed (acc : List Nat) (j p : Nat) (m : Option String) :
    runStep acc (Event.jobRecord j p "completed" m) = acc.erase j := by
  simp [runStep]

@[simp] theorem runStep_jobRecord_failed (acc : List Nat) (j p : Nat) (m : Option String) :
    runStep acc (Event.jobRecord j p "failed" m) = acc.erase j := by
  simp [runStep]

theorem pyUpdate_isEmpty_collapse (l base : PyDict) :
    (if l.isEmpty then base else pyUpdate base l) = pyUpdate base l := by
  cases l <;> simp [pyUpdate]

theorem foldl_runStep_updateDoc (acc : List Nat) (env : Env) (d : String) (u p : Nat)
    (s : String) (m : Option String) :
    List.foldl runStep acc (updateDocumentProgressSync env d u p s m) = acc := by
  unfold updateDocumentProgressSync sendProgressUpdateSync
  split <;> simp

theorem foldl_runStep_updateJob_running (acc : List Nat) (env : Env) (j p : Nat)
    (m : Option String) :
    List.foldl runStep acc (updateJobProgressSync env j p "running" m)
      = if env.jobRecordExists then (if j ∈ acc then acc else acc ++ [j]) else acc := by
  unfold updateJobProgressSync
  split <;> simp

theorem foldl_runStep_updateJob_completed (acc : List Nat) (env : Env) (j p : Nat)
    (m : Option String) :
    List.foldl runStep acc (updateJobProgressSync env j p "completed" m)
      = if env.jobRecordExists then acc.erase j else acc := by
  unfold updateJobProgressSync
  split <;> simp

theorem foldl_runStep_updateJob_failed (acc : List Nat) (env : Env) (j p : Nat)
    (m : Option String) :
    List.foldl runStep acc (updateJobProgressSync env j p "failed" m)
      = if env.jobRecordExists then acc.erase j else acc := by
  unfold updateJobProgressSync
  split <;> simp

theorem foldl_runStep_pipelineFail (acc : List Nat) (env : Env) (job : ProcessingJob)
    (tr : List Event) (e : String) :
    List.foldl runStep acc (pipelineFail env job tr e).trace
      = if env.jobRecordExists then (List.foldl runStep acc tr).erase job.jobId
        else List.foldl runStep acc tr := by
  simp [pipelineFail, List.foldl_append, foldl_runStep_updateJob_failed, foldl_runStep_updateDoc]

theorem foldl_runStep_finishRun (acc : List Nat) (env : Env) (job : ProcessingJob)
    (tr : List Event) (fm : PyDict) (g a : Nat) :
    List.foldl runStep acc (finishRun env job tr fm g a).trace
      = if env.jobRecordExists then (List.foldl runStep acc tr).erase job.jobId
        else List.foldl runStep acc tr := by
  unfold finishRun
  split <;>
    simp [List.foldl_append, foldl_runStep_updateJob_completed, foldl_runStep_updateDoc]

/-! ## Wrapper projections -/

theorem processNextDocument_success (env : Env) (c : Nat) (d : DocRow) :
    (processNextDocument env c d).success = (processDocumentSync env (jobOf c d)).success := rfl

theorem processNextDocument_errorMsg (env : Env) (c : Nat) (d : DocRow) :
    (processNextDocument env c d).errorMsg = (processDocumentSync env (jobOf c d)).errorMsg := rfl

theorem processNextDocument_finalMeta (env : Env) (c : Nat) (d : DocRow) :
    (processNextDocument env c d).finalMeta = (processDocumentSync env (jobOf c d)).finalMeta :=
  rfl

theorem processNextDocument_extractedMeta (env : Env) (c : Nat) (d : DocRow) :
    (processNextDocument env c d).extractedMeta
      = (processDocumentSync env (jobOf c d)).extractedMeta := rfl

theorem processNextDocument_trace (env : Env) (c : Nat) (d : DocRow) :
    (processNextDocument env c d).trace
      = Event.docStatus d.id "processing" 0 Option.none
          :: (processDocumentSync env (jobOf c d)).trace
          ++ [Event.docStatus d.id
                (if (processDocumentSync env (jobOf c d)).success then "completed" else "failed")
                100 Option.none]
          ++ (if (processDocumentSync env (jobOf c d)).success then []
              else [Event.cleanup d.id]) := rfl

/-! ## The running-jobs accounting of one block -/

theorem runningJobs_sync (env : Env) (job : ProcessingJob) :
    List.foldl runStep [] (processDocumentSync env job).trace = [] := by
  cases hJ : env.jobRecordExists <;>
  · simp only [processDocumentSync, pyUpdate_isEmpty_collapse]
    repeat' split
    all_goals
      simp [List.foldl_append, foldl_runStep_pipelineFail, foldl_runStep_finishRun,
        foldl_runStep_updateDoc, foldl_runStep_updateJob_running, hJ]

theorem runningJobs_block (env : Env) (c : Nat) (d : DocRow) :
    runningJobs (processNextDocument env c d).trace = [] := by
  rw [runningJobs, processNextDocument_trace]
  cases hs : (processDocumentSync env (jobOf c d)).success <;>
    simp [hs, List.foldl_append, runningJobs_sync]

/-! ## C1 machinery -/

theorem jobIdsOk_eq_all (c : Nat) (es : List Event) : jobIdsOk c es = es.all (jobIdOkEvent c) :=
  rfl

theorem all_jobIdOk_updateJob (c : Nat) (env : Env) (p : Nat) (s : String) (m : Option String) :
    (updateJobProgressSync env c p s m).all (jobIdOkEvent c) = true := by
  unfold updateJobProgressSync
  split <;> simp [jobIdOkEvent]

theorem all_jobIdOk_updateDoc (c : Nat) (env : Env) (d : String) (u p : Nat) (s : String)
    (m : Option String) :
    (updateDocumentProgressSync env d u p s m).all (jobIdOkEvent c) = true := by
  unfold updateDocumentProgressSync sendProgressUpdateSync
  split <;> simp [jobIdOkEvent]

theorem all_jobIdOk_pipelineFail (env : Env) (job : ProcessingJob) (tr : List Event)
    (e : String) : (pipelineFail env job tr e).trace.all (jobIdOkEvent job.jobId)
      = tr.all (jobIdOkEvent job.jobId) := by
  simp only [pipelineFail, List.all_append, all_jobIdOk_updateJob,
    all_jobIdOk_updateDoc, Bool.and_true]

theorem all_jobIdOk_finishRun (env : Env) (job : ProcessingJob) (tr : List Event) (fm : PyDict)
    (g a : Nat) : (finishRun env job tr fm g a).trace.all (jobIdOkEvent job.jobId)
      = tr.all (jobIdOkEvent job.jobId) := by
  unfold finishRun
  split <;>
    simp only [List.all_append, List.all_cons, List.all_nil,
      all_jobIdOk_updateJob, all_jobIdOk_updateDoc, jobIdOkEvent, Bool.and_true]

theorem jobIdsOk_sync (env : Env) (job : ProcessingJob) :
    jobIdsOk job.jobId (processDocumentSync env job).trace = true := by
  simp only [jobIdsOk_eq_all, processDocumentSync, pyUpdate_isEmpty_collapse]
  repeat' split
  all_goals
    simp only [all_jobIdOk_pipelineFail, all_jobIdOk_finishRun, List.all_append,
      List.all_cons, List.all_nil, all_jobIdOk_updateJob, all_jobIdOk_updateDoc, jobIdOkEvent,
      Bool.and_true, Bool.and_self]

theorem jobIdsOk_block (env : Env) (c : Nat) (d : DocRow) :
    jobIdsOk c (processNextDocument env c d).trace = true := by
  have hsync := jobIdsOk_sync env (jobOf c d)
  have hj : (jobOf c d).jobId = c := rfl
  rw [jobIdsOk_eq_all] at hsync ⊢
  rw [hj] at hsync
  rw [processNextDocument_trace]
  cases hs : (processDocumentSync env (jobOf c d)).success <;>
    simp only [hs, List.all_cons, List.all_append, List.all_nil, hsync, jobIdOkEvent,
      Bool.and_true, Bool.true_and, if_true, if_false, Bool.false_eq_true, Bool.and_self]

theorem foldl_runStep_subset (c : Nat) : ∀ (es : List Event) (acc : List Nat),
    jobIdsOk c es = true → (∀ x ∈ acc, x = c) → ∀ x ∈ List.foldl runStep acc es, x = c := by
  intro es
  induction es with
  | nil => intro acc _ hacc; simpa using hacc
  | cons e rest ih =>
    intro acc hok hacc
    rw [jobIdsOk_eq_all, List.all_cons, Bool.and_eq_true] at hok
    refine ih (runStep acc e) (by rw [jobIdsOk_eq_all]; exact hok.2) ?_
    cases e with
    | jobRecord j p s m =>
      have hj : j = c := by simpa [jobIdOkEvent] using hok.1
      subst hj
      intro x hx
      rw [runStep] at hx
      split at hx
      · split at hx
        · exact hacc x hx
        · rcases List.mem_append.mp hx with h | h
          · exact hacc x h
          · simpa using h
      · split at hx
        · exact hacc x (List.mem_of_mem_erase hx)
        · exact hacc x hx
    | docStatus d s p cc => simpa using hacc
    | docRecord d p s m => simpa using hacc
    | push u pl => simpa using hacc
    | copyFile s d => simpa using hacc
    | saveMarkdown p ct => simpa using hacc
    | saveMetadata p m => simpa using hacc
    | chunked n => simpa using hacc
    | embedChunks n => simpa using hacc
    | addChunks d n b => simpa using hacc
    | setDocMeta d m n => simpa using hacc
    | cleanup d => simpa using hacc

theorem jobIdsOk_of_take (c : Nat) (es : List Event) (n : Nat) (h : jobIdsOk c es = true) :
    jobIdsOk c (es.take n) = true := by
  rw [jobIdsOk_eq_all, List.all_eq_true] at h ⊢
  intro e he
  exact h e (List.mem_of_mem_take he)

theorem runningJobs_take_block (env : Env) (c : Nat) (d : DocRow) (n : Nat) :
    ∀ x ∈ runningJobs ((processNextDocument env c d).trace.take n), x = c := by
  intro x hx
  exact foldl_runStep_subset c _ []
    (jobIdsOk_of_take c _ n (jobIdsOk_block env c d)) (by simp) x hx

/-- Claim C1, main theorem. -/
theorem atMostOneRunning (envOf : Nat → Env) :
    ∀ (docs : List DocRow) (c : Nat) (p : List Event), p <+: drainQueue envOf c docs →
      ∀ x ∈ runningJobs p, ∀ y ∈ runningJobs p, x = y := by
  intro docs
  induction docs with
  | nil =>
    intro c p hp
    rw [drainQueue, List.prefix_nil] at hp
    subst hp
    simp [runningJobs]
  | cons d ds ih =>
    intro c p hp
    rw [drainQueue] at hp
    have hpe : p = ((processNextDocument (envOf c) c d).trace ++ drainQueue envOf (c + 1) ds).take p.length :=
      List.prefix_iff_eq_take.mp hp
    rw [List.take_append_eq_append_take] at hpe
    by_cases hn : p.length ≤ (processNextDocument (envOf c) c d).trace.length
    · have hz : p.length - (processNextDocument (envOf c) c d).trace.length = 0 :=
        Nat.sub_eq_zero_of_le hn
      rw [hz, List.take_zero, List.append_nil] at hpe
      intro x hx y hy
      rw [hpe] at hx hy
      have hxc := runningJobs_take_block (envOf c) c d p.length x hx
      have hyc := runningJobs_take_block (envOf c) c d p.length y hy
      rw [hxc, hyc]
    · push_neg at hn
      have hfull : (processNextDocument (envOf c) c d).trace.take p.length
          = (processNextDocument (envOf c) c d).trace :=
        List.take_of_length_le (Nat.le_of_lt hn)
      rw [hfull] at hpe
      have hq : runningJobs p
          = runningJobs ((drainQueue envOf (c + 1) ds).take
              (p.length - (processNextDocument (envOf c) c d).trace.length)) := by
        conv_lhs => rw [hpe]
        rw [runningJobs, runningJobs, List.foldl_append,
          show List.foldl runStep [] (processNextDocument (envOf c) c d).trace = [] from
            runningJobs_block (envOf c) c d]
      intro x hx y hy
      rw [hq] at hx hy
      exact ih (c + 1) _ ⟨_, List.take_append_drop _ _⟩ x hx y hy


/-! ## C2 machinery: extensions and the dispatch -/

theorem pyEndsWith_iff (s t : String) : pyEndsWith s t = true ↔ t.data <:+ s.data := by
  rw [pyEndsWith, List.isSuffixOf]
  rw [show (List.isPrefixOf t.data.reverse s.data.reverse = true)
        ↔ (t.data.reverse <+: s.data.reverse) from List.isPrefixOf_iff_prefix]
  exact List.reverse_prefix

theorem fileExt_of_pyEndsWith (name t : String) (e : List Char) (ht : t.data = '.' :: e)
    (he : ∀ c ∈ e, c ≠ '.') (h : pyEndsWith (pyLower name) t = true) :
    fileExt name = String.mk e := by
  rw [pyEndsWith_iff] at h
  obtain ⟨u, hu⟩ := h
  rw [fileExt, pyLower] at *
  have hdata : (String.mk ((pyLower name).data)).data = (pyLower name).data := rfl
  rw [show (String.mk (name.data.map Char.toLower)).data = name.data.map Char.toLower from rfl]
    at hu ⊢
  rw [← hu, ht, List.reverse_append, List.reverse_cons]
  rw [List.append_assoc]
  rw [List.takeWhile_append_of_pos (by intro a ha; simpa using he a (by simpa using ha))]
  simp

theorem dispatchFormat_eq_none_of_ext (name : String)
    (h : fileExt name ∉ ["pdf", "doc", "docx", "md", "markdown"]) :
    dispatchFormat name = Option.none := by
  have h1 : ¬ pyEndsWith (pyLower name) ".pdf" = true := by
    intro hc
    exact h (by rw [fileExt_of_pyEndsWith name ".pdf" ['p','d','f'] (by decide) (by decide) hc]; simp)
  have h2 : ¬ pyEndsWith (pyLower name) ".docx" = true := by
    intro hc
    exact h (by rw [fileExt_of_pyEndsWith name ".docx" ['d','o','c','x'] (by decide) (by decide) hc]; simp)
  have h3 : ¬ pyEndsWith (pyLower name) ".doc" = true := by
    intro hc
    exact h (by rw [fileExt_of_pyEndsWith name ".doc" ['d','o','c'] (by decide) (by decide) hc]; simp)
  have h4 : ¬ pyEndsWith (pyLower name) ".md" = true := by
    intro hc
    exact h (by rw [fileExt_of_pyEndsWith name ".md" ['m','d'] (by decide) (by decide) hc]; simp)
  have h5 : ¬ pyEndsWith (pyLower name) ".markdown" = true := by
    intro hc
    exact h (by rw [fileExt_of_pyEndsWith name ".markdown"
      ['m','a','r','k','d','o','w','n'] (by decide) (by decide) hc]; simp)
  rw [dispatchFormat]
  simp [h1, h2, h3, h4, h5]

/-! ## C2: unsupported extension -/

@[simp] theorem pipelineFail_success (env : Env) (job : ProcessingJob) (tr : List Event)
    (e : String) : (pipelineFail env job tr e).success = false := rfl

@[simp] theorem pipelineFail_errorMsg (env : Env) (job : ProcessingJob) (tr : List Event)
    (e : String) : (pipelineFail env job tr e).errorMsg = some ("Processing failed: " ++ e) :=
  rfl

theorem pipelineFail_trace (env : Env) (job : ProcessingJob) (tr : List Event) (e : String) :
    (pipelineFail env job tr e).trace
      = tr ++ updateJobProgressSync env job.jobId 0 "failed"
            (some ("Processing failed: " ++ e))
          ++ updateDocumentProgressSync env job.docId job.userId 0 "failed"
            (some ("Processing failed: " ++ e)) := rfl

theorem all_noLater_updateJob (env : Env) (j p : Nat) (s : String) (m : Option String) :
    (updateJobProgressSync env j p s m).all noLaterEvent = true := by
  unfold updateJobProgressSync
  split <;> simp [noLaterEvent, isEmbedComputation, isIndexWrite, isPostConversionEvent]

theorem all_noLater_updateDoc (env : Env) (d : String) (u p : Nat) (s : String)
    (m : Option String) :
    (updateDocumentProgressSync env d u p s m).all noLaterEvent = true := by
  unfold updateDocumentProgressSync sendProgressUpdateSync
  split <;> simp [noLaterEvent, isEmbedComputation, isIndexWrite, isPostConversionEvent]

/-- Claim C2: a job whose filename extension is outside
{pdf, doc, docx, md, markdown} fails at the materialize-input stage
with the unsupported-format error, and its trace holds no embedding
computation, no vector-index write and no post-conversion event. -/
theorem unsupportedExtensionFails (env : Env) (c : Nat) (d : DocRow)
    (h : fileExt d.filename ∉ ["pdf", "doc", "docx", "md", "markdown"]) :
    (processNextDocument env c d).success = false
    ∧ (processNextDocument env c d).errorMsg
        = some ("Processing failed: Unsupported file format: " ++ d.filename)
    ∧ ∀ e ∈ (processNextDocument env c d).trace,
        isEmbedComputation e = false ∧ isIndexWrite e = false
          ∧ isPostConversionEvent e = false := by
  have hd : dispatchFormat (jobOf c d).originalFilename = Option.none :=
    dispatchFormat_eq_none_of_ext d.filename h
  refine ⟨?_, ?_, ?_⟩
  · rw [processNextDocument_success]
    simp only [processDocumentSync, hd, pipelineFail_success]
  · rw [processNextDocument_errorMsg]
    simp only [processDocumentSync, hd, pipelineFail_errorMsg]
    rw [show (jobOf c d).originalFilename = d.filename from rfl, ← String.append_assoc]
    rw [show ("Processing failed: " ++ "Unsupported file format: " : String)
      = "Processing failed: Unsupported file format: " from by decide]
  · have hbulk : (processNextDocument env c d).trace.all noLaterEvent = true := by
      rw [processNextDocument_trace]
      simp only [processDocumentSync, hd, pipelineFail_success, pipelineFail_trace,
        Bool.false_eq_true, if_false, List.all_cons, List.all_append, List.all_nil,
        all_noLater_updateJob, all_noLater_updateDoc, noLaterEvent, isEmbedComputation,
        isIndexWrite, isPostConversionEvent, Bool.and_true, Bool.and_self]
      rfl
    intro e he
    have := List.all_eq_true.mp hbulk e he
    revert this
    cases e <;> simp [noLaterEvent, isEmbedComputation, isIndexWrite, isPostConversionEvent]

/-! ## C9: pushes are document-scoped -/

theorem all_pushOk_updateJob (env : Env) (j p : Nat) (s : String) (m : Option String) :
    (updateJobProgressSync env j p s m).all pushOkEvent = true := by
  unfold updateJobProgressSync
  split <;> simp [pushOkEvent]

theorem all_pushOk_updateDoc (env : Env) (d : String) (u p : Nat) (s : String)
    (m : Option String) :
    (updateDocumentProgressSync env d u p s m).all pushOkEvent = true := by
  unfold updateDocumentProgressSync sendProgressUpdateSync
  split <;> simp [pushOkEvent]

theorem all_pushOk_pipelineFail (env : Env) (job : ProcessingJob) (tr : List Event)
    (e : String) : (pipelineFail env job tr e).trace.all pushOkEvent = tr.all pushOkEvent := by
  simp only [pipelineFail, List.all_append, all_pushOk_updateJob, all_pushOk_updateDoc,
    Bool.and_true]

theorem all_pushOk_finishRun (env : Env) (job : ProcessingJob) (tr : List Event) (fm : PyDict)
    (g a : Nat) : (finishRun env job tr fm g a).trace.all pushOkEvent = tr.all pushOkEvent := by
  unfold finishRun
  split <;>
    simp only [List.all_append, List.all_cons, List.all_nil, all_pushOk_updateJob,
      all_pushOk_updateDoc, pushOkEvent, Bool.and_true]

theorem pushesDocTyped_sync (env : Env) (job : ProcessingJob) :
    (processDocumentSync env job).trace.all pushOkEvent = true := by
  simp only [processDocumentSync, pyUpdate_isEmpty_collapse]
  repeat' split
  all_goals
    simp only [all_pushOk_pipelineFail, all_pushOk_finishRun, List.all_append, List.all_cons,
      List.all_nil, all_pushOk_updateJob, all_pushOk_updateDoc, pushOkEvent, Bool.and_true,
      Bool.and_self]

theorem pushesDocTyped_block (env : Env) (c : Nat) (d : DocRow) :
    (processNextDocument env c d).trace.all pushOkEvent = true := by
  rw [processNextDocument_trace]
  cases hs : (processDocumentSync env (jobOf c d)).success <;>
    simp only [hs, List.all_cons, List.all_append, List.all_nil,
      pushesDocTyped_sync, pushOkEvent, Bool.and_true, Bool.true_and, if_true, if_false,
      Bool.false_eq_true, Bool.and_self]

/-- Claim C9: every progress push of a run is document-scoped; no
job-scoped (`"job_progress"`) event is ever pushed (the job-progress
send is commented out in the source at line 338). -/
theorem pushesAreDocumentScoped (env : Env) (c : Nat) (d : DocRow) :
    ∀ u pl, Event.push u pl ∈ (processNextDocument env c d).trace →
      pl.ptype = "document_progress" := by
  intro u pl hmem
  have := List.all_eq_true.mp (pushesDocTyped_block env c d) _ hmem
  simpa [pushOkEvent] using this

/-! ## C6: the claim write comes first -/

/-- Claim C6: the very first event of a selected-document iteration is
the committed status transition to `"processing"`, and every prefix of
the trace that holds any pipeline-stage event holds that committed
transition. -/
theorem claimCommittedBeforeStages (env : Env) (c : Nat) (d : DocRow) :
    (processNextDocument env c d).trace.head?
        = some (Event.docStatus d.id "processing" 0 Option.none)
    ∧ ∀ p, p <+: (processNextDocument env c d).trace →
        (∃ e ∈ p, isStageEvent e = true) →
        Event.docStatus d.id "processing" 0 Option.none ∈ p := by
  constructor
  · rw [processNextDocument_trace]
    rfl
  · intro p hp he
    rcases he with ⟨e, hep, _⟩
    cases p with
    | nil => simp at hep
    | cons a q =>
      have ha : a = Event.docStatus d.id "processing" 0 Option.none := by
        rw [processNextDocument_trace] at hp
        obtain ⟨t, ht⟩ := hp
        rw [List.cons_append] at ht
        injection ht with h1 h2
      simp [ha]

/-! ## C3: the progress sequence -/

@[simp] theorem finishRun_success (env : Env) (job : ProcessingJob) (tr : List Event)
    (fm : PyDict) (g a : Nat) : (finishRun env job tr fm g a).success = true := by
  unfold finishRun
  split <;> rfl

theorem fmE_append (a b : List Event) :
    List.filterMap eventProgress (a ++ b)
      = List.filterMap eventProgress a ++ List.filterMap eventProgress b := by
  simp [List.filterMap_append]

theorem fmE_updateJob (env : Env) (j p : Nat) (s : String) (m : Option String) :
    List.filterMap eventProgress (updateJobProgressSync env j p s m)
      = if env.jobRecordExists then [(s, p)] else [] := by
  unfold updateJobProgressSync
  split <;> simp [eventProgress]

theorem fmE_updateDoc (env : Env) (d : String) (u p : Nat) (s : String) (m : Option String) :
    List.filterMap eventProgress (updateDocumentProgressSync env d u p s m)
      = if env.docRecordExists then [(s, p)] else [] := by
  unfold updateDocumentProgressSync sendProgressUpdateSync
  split <;> simp [eventProgress]

theorem fmE_pipelineFail (env : Env) (job : ProcessingJob) (tr : List Event) (e : String) :
    List.filterMap eventProgress (pipelineFail env job tr e).trace
      = List.filterMap eventProgress tr
          ++ ((if env.jobRecordExists then [("failed", 0)] else [])
            ++ (if env.docRecordExists then [("failed", 0)] else [])) := by
  simp only [pipelineFail, fmE_append, fmE_updateJob, fmE_updateDoc, List.append_assoc]

theorem fmE_finishRun (env : Env) (job : ProcessingJob) (tr : List Event) (fm : PyDict)
    (g a : Nat) :
    List.filterMap eventProgress (finishRun env job tr fm g a).trace
      = List.filterMap eventProgress tr
          ++ ((if env.jobRecordExists then [("completed", 100)] else [])
            ++ ((if env.docRecordExists then [("completed", 100)] else [])
              ++ [("completed", 100)])) := by
  unfold finishRun
  split <;>
    simp [fmE_append, fmE_updateJob, fmE_updateDoc, eventProgress]

theorem spw_sync_success (env : Env) (job : ProcessingJob) (hJ : env.jobRecordExists = true)
    (hD : env.docRecordExists = true) (h : (processDocumentSync env job).success = true) :
    statusProgressWrites (processDocumentSync env job).trace
      = [("running", 0), ("processing", 0), ("running", 10), ("running", 30),
         ("processing", 30), ("running", 50), ("processing", 50), ("running", 70),
         ("processing", 70), ("running", 90), ("processing", 90), ("completed", 100),
         ("completed", 100), ("completed", 100)] := by
  revert h
  rw [statusProgressWrites]
  simp only [processDocumentSync, pyUpdate_isEmpty_collapse]
  repeat' split
  all_goals
    intro h
  all_goals
    first
    | (exfalso; revert h; simp; done)
    | simp [fmE_finishRun, fmE_append, fmE_updateJob, fmE_updateDoc, eventProgress, hJ, hD]

theorem spw_sync_failure (env : Env) (job : ProcessingJob) (hJ : env.jobRecordExists = true)
    (hD : env.docRecordExists = true) (h : (processDocumentSync env job).success = false) :
    [("failed", 0), ("failed", 0)]
      <:+ statusProgressWrites (processDocumentSync env job).trace := by
  revert h
  rw [statusProgressWrites]
  simp only [processDocumentSync, pyUpdate_isEmpty_collapse]
  repeat' split
  all_goals
    intro h
  all_goals
    first
    | (exfalso; revert h; simp; done)
    | (simp only [fmE_pipelineFail, fmE_append, fmE_updateJob, fmE_updateDoc, hJ, hD,
        if_true, List.filterMap_cons, List.filterMap_nil, eventProgress, List.append_assoc,
        List.nil_append, List.append_nil]
       decide)

/-! ## C3 wrapper -/

theorem spw_block (env : Env) (c : Nat) (d : DocRow) :
    statusProgressWrites (processNextDocument env c d).trace
      = ("processing", 0) :: statusProgressWrites (processDocumentSync env (jobOf c d)).trace
          ++ [((if (processDocumentSync env (jobOf c d)).success then "completed" else "failed"),
               100)] := by
  rw [processNextDocument_trace]
  cases hs : (processDocumentSync env (jobOf c d)).success <;>
    simp [hs, statusProgressWrites, List.filterMap_append, eventProgress]

/-- Claim C3 (amended): with both progress records present, the
(status, progress) writes of a successful run are exactly
(processing,0), (running,0), (processing,0), (running,10),
(running,30), (processing,30), (running,50), (processing,50),
(running,70), (processing,70), (running,90), (processing,90) and four
(completed,100) writes: non-decreasing with value set
{0,10,30,50,70,90,100}.  A failed run ends with the two reset writes
(failed,0), (failed,0) followed by a final document-status write
(failed,100), so the last progress written on failure is 100, not 0. -/
theorem progressWriteSequence (env : Env) (c : Nat) (d : DocRow)
    (hJ : env.jobRecordExists = true) (hD : env.docRecordExists = true) :
    ((processNextDocument env c d).success = true →
      statusProgressWrites (processNextDocument env c d).trace
        = [("processing", 0), ("running", 0), ("processing", 0), ("running", 10),
           ("running", 30), ("processing", 30), ("running", 50), ("processing", 50),
           ("running", 70), ("processing", 70), ("running", 90), ("processing", 90),
           ("completed", 100), ("completed", 100), ("completed", 100), ("completed", 100)]
      ∧ List.Chain' (fun a b => a.2 ≤ b.2)
          (statusProgressWrites (processNextDocument env c d).trace)
      ∧ (∀ v, v ∈ progressValues (processNextDocument env c d).trace
            ↔ v ∈ [0, 10, 30, 50, 70, 90, 100]))
    ∧ ((processNextDocument env c d).success = false →
      [("failed", 0), ("failed", 0), ("failed", 100)]
        <:+ statusProgressWrites (processNextDocument env c d).trace) := by
  constructor
  · intro hsucc
    rw [processNextDocument_success] at hsucc
    have heq : statusProgressWrites (processNextDocument env c d).trace
        = [("processing", 0), ("running", 0), ("processing", 0), ("running", 10),
           ("running", 30), ("processing", 30), ("running", 50), ("processing", 50),
           ("running", 70), ("processing", 70), ("running", 90), ("processing", 90),
           ("completed", 100), ("completed", 100), ("completed", 100), ("completed", 100)] := by
      rw [spw_block, spw_sync_success env (jobOf c d) hJ hD hsucc, hsucc]
      decide
    refine ⟨heq, ?_, ?_⟩
    · rw [heq]
      simp [List.chain'_cons]
    · intro v
      rw [progressValues, heq]
      simp
      try omega
  · intro hfail
    rw [processNextDocument_success] at hfail
    obtain ⟨pre, hpre⟩ := spw_sync_failure env (jobOf c d) hJ hD hfail
    refine ⟨("processing", 0) :: pre, ?_⟩
    rw [spw_block, ← hpre, hfail]
    simp

/-- Claim C3, counterexample to the claim as stated: a failing run's
last written progress value is 100 (the line-136 final status write),
not 0. -/
theorem progressResetNotLast :
    (processNextDocument envAllOk 0 docBadExt).success = false
    ∧ (progressValues (processNextDocument envAllOk 0 docBadExt).trace).getLast?
        = some 100 := by
  decide

/-! ## C7: checkpoint writes -/

theorem jwp_append (a b : List Event) :
    jobWriteProgresses (a ++ b) = jobWriteProgresses a ++ jobWriteProgresses b := by
  simp [jobWriteProgresses, List.filterMap_append]

theorem jwp_updateJob (env : Env) (j p : Nat) (s : String) (m : Option String) :
    jobWriteProgresses (updateJobProgressSync env j p s m)
      = if env.jobRecordExists then [p] else [] := by
  unfold updateJobProgressSync
  split <;> simp [jobWriteProgresses, jobProgressOf]

theorem jwp_updateDoc (env : Env) (d : String) (u p : Nat) (s : String) (m : Option String) :
    jobWriteProgresses (updateDocumentProgressSync env d u p s m) = [] := by
  unfold updateDocumentProgressSync sendProgressUpdateSync
  split <;> simp [jobWriteProgresses, jobProgressOf]

theorem jwp_pipelineFail (env : Env) (job : ProcessingJob) (tr : List Event) (e : String) :
    jobWriteProgresses (pipelineFail env job tr e).trace
      = jobWriteProgresses tr ++ (if env.jobRecordExists then [0] else []) := by
  simp [pipelineFail, jwp_append, jwp_updateJob, jwp_updateDoc]

theorem jwp_singleton_docStatus (d s : String) (p : Nat) (cc : Option Nat) :
    jobWriteProgresses [Event.docStatus d s p cc] = [] := rfl

theorem jwp_singleton_setDocMeta (d : String) (m : PyDict) (n : Nat) :
    jobWriteProgresses [Event.setDocMeta d m n] = [] := rfl

theorem jwp_finishRun (env : Env) (job : ProcessingJob) (tr : List Event) (fm : PyDict)
    (g a : Nat) :
    jobWriteProgresses (finishRun env job tr fm g a).trace
      = jobWriteProgresses tr ++ (if env.jobRecordExists then [100] else []) := by
  unfold finishRun
  split <;>
    simp only [jwp_append, jwp_updateJob, jwp_updateDoc, jwp_singleton_docStatus,
      jwp_singleton_setDocMeta, List.append_nil, List.nil_append, List.append_assoc]

theorem anyDW_updateJob (env : Env) (j q : Nat) (s : String) (m : Option String)
    (dd : String) (p : Nat) :
    (updateJobProgressSync env j q s m).any (docWriteAtEvent dd p) = false := by
  unfold updateJobProgressSync
  split <;> simp [docWriteAtEvent]

theorem anyDW_updateDoc (env : Env) (dd : String) (u q : Nat) (s : String) (m : Option String)
    (p : Nat) :
    (updateDocumentProgressSync env dd u q s m).any (docWriteAtEvent dd p)
      = (env.docRecordExists && (q == p)) := by
  unfold updateDocumentProgressSync sendProgressUpdateSync
  split <;> simp_all [docWriteAtEvent]

theorem anyDW_pipelineFail (env : Env) (job : ProcessingJob) (tr : List Event) (e : String)
    (p : Nat) :
    (pipelineFail env job tr e).trace.any (docWriteAtEvent job.docId p)
      = (tr.any (docWriteAtEvent job.docId p) || (env.docRecordExists && (0 == p))) := by
  simp [pipelineFail, List.any_append, anyDW_updateJob, anyDW_updateDoc]

theorem anyDW_finishRun (env : Env) (job : ProcessingJob) (tr : List Event) (fm : PyDict)
    (g a : Nat) (p : Nat) :
    (finishRun env job tr fm g a).trace.any (docWriteAtEvent job.docId p)
      = (tr.any (docWriteAtEvent job.docId p) || (env.docRecordExists && (100 == p))) := by
  unfold finishRun
  split <;> simp [List.any_append, anyDW_updateJob, anyDW_updateDoc, docWriteAtEvent]

theorem anyPush_updateJob (env : Env) (j q : Nat) (s : String) (m : Option String) (p : Nat) :
    (updateJobProgressSync env j q s m).any (pushAtEvent p) = false := by
  unfold updateJobProgressSync
  split <;> simp [pushAtEvent]

theorem anyPush_updateDoc (env : Env) (dd : String) (u q : Nat) (s : String)
    (m : Option String) (p : Nat) :
    (updateDocumentProgressSync env dd u q s m).any (pushAtEvent p) = (q == p) := by
  unfold updateDocumentProgressSync sendProgressUpdateSync
  split <;> simp [pushAtEvent]

theorem anyPush_pipelineFail (env : Env) (job : ProcessingJob) (tr : List Event) (e : String)
    (p : Nat) :
    (pipelineFail env job tr e).trace.any (pushAtEvent p)
      = (tr.any (pushAtEvent p) || (0 == p)) := by
  simp [pipelineFail, List.any_append, anyPush_updateJob, anyPush_updateDoc]

theorem anyPush_finishRun (env : Env) (job : ProcessingJob) (tr : List Event) (fm : PyDict)
    (g a : Nat) (p : Nat) :
    (finishRun env job tr fm g a).trace.any (pushAtEvent p)
      = (tr.any (pushAtEvent p) || (100 == p)) := by
  unfold finishRun
  split <;> simp [List.any_append, anyPush_updateJob, anyPush_updateDoc, pushAtEvent]

theorem noDocWriteAt10_sync (env : Env) (job : ProcessingJob) :
    (processDocumentSync env job).trace.any (docWriteAtEvent job.docId 10) = false := by
  simp only [processDocumentSync, pyUpdate_isEmpty_collapse]
  repeat' split
  all_goals
    simp [anyDW_pipelineFail, anyDW_finishRun, List.any_append, anyDW_updateJob,
      anyDW_updateDoc, docWriteAtEvent]

theorem noPushAt10_sync (env : Env) (job : ProcessingJob) :
    (processDocumentSync env job).trace.any (pushAtEvent 10) = false := by
  simp only [processDocumentSync, pyUpdate_isEmpty_collapse]
  repeat' split
  all_goals
    simp [anyPush_pipelineFail, anyPush_finishRun, List.any_append, anyPush_updateJob,
      anyPush_updateDoc, pushAtEvent]

theorem jwp_nil : jobWriteProgresses [] = [] := rfl

theorem jwp_cons_copyFile (s d : String) (es : List Event) :
    jobWriteProgresses (Event.copyFile s d :: es) = jobWriteProgresses es := rfl

theorem jwp_cons_saveMarkdown (p c : String) (es : List Event) :
    jobWriteProgresses (Event.saveMarkdown p c :: es) = jobWriteProgresses es := rfl

theorem jwp_cons_saveMetadata (p : String) (m : PyDict) (es : List Event) :
    jobWriteProgresses (Event.saveMetadata p m :: es) = jobWriteProgresses es := rfl

theorem jwp_cons_chunked (n : Nat) (es : List Event) :
    jobWriteProgresses (Event.chunked n :: es) = jobWriteProgresses es := rfl

theorem jwp_cons_embedChunks (n : Nat) (es : List Event) :
    jobWriteProgresses (Event.embedChunks n :: es) = jobWriteProgresses es := rfl

theorem jwp_cons_addChunks (d : String) (n b : Nat) (es : List Event) :
    jobWriteProgresses (Event.addChunks d n b :: es) = jobWriteProgresses es := rfl

set_option maxHeartbeats 2000000 in
theorem pairedWrites_sync (env : Env) (job : ProcessingJob)
    (hD : env.docRecordExists = true) :
    ∀ p ∈ jobWriteProgresses (processDocumentSync env job).trace, p ≠ 10 →
      (processDocumentSync env job).trace.any (docWriteAtEvent job.docId p) = true
      ∧ (processDocumentSync env job).trace.any (pushAtEvent p) = true := by
  cases hJ : env.jobRecordExists <;>
  · simp only [processDocumentSync, pyUpdate_isEmpty_collapse]
    repeat' split
    all_goals
      intro p hp hne
      simp only [jwp_pipelineFail, jwp_finishRun, jwp_append, jwp_updateJob, jwp_updateDoc,
        jwp_cons_copyFile, jwp_cons_saveMarkdown, jwp_cons_saveMetadata, jwp_cons_chunked,
        jwp_cons_embedChunks, jwp_cons_addChunks, jwp_nil, hJ, eq_self_iff_true, if_true,
        Bool.false_eq_true, if_false, List.append_nil, List.nil_append,
        List.singleton_append, List.append_assoc] at hp
      fin_cases hp <;>
        first
        | exact absurd rfl hne
        | (constructor <;>
            simp [anyDW_pipelineFail, anyDW_finishRun, anyPush_pipelineFail,
              anyPush_finishRun, List.any_append, anyDW_updateJob, anyDW_updateDoc,
              anyPush_updateJob, anyPush_updateDoc, hD, hJ])

theorem jwp_cons_docStatus (d s : String) (p : Nat) (cc : Option Nat) (es : List Event) :
    jobWriteProgresses (Event.docStatus d s p cc :: es) = jobWriteProgresses es := rfl

theorem jwp_cons_cleanup (d : String) (es : List Event) :
    jobWriteProgresses (Event.cleanup d :: es) = jobWriteProgresses es := rfl

theorem dwa_docStatus (dd : String) (p : Nat) (d s : String) (q : Nat) (cc : Option Nat) :
    docWriteAtEvent dd p (Event.docStatus d s q cc) = false := rfl

theorem dwa_cleanup (dd : String) (p : Nat) (d : String) :
    docWriteAtEvent dd p (Event.cleanup d) = false := rfl

theorem pae_docStatus (p : Nat) (d s : String) (q : Nat) (cc : Option Nat) :
    pushAtEvent p (Event.docStatus d s q cc) = false := rfl

theorem pae_cleanup (p : Nat) (d : String) : pushAtEvent p (Event.cleanup d) = false := rfl

theorem jwp_block (env : Env) (c : Nat) (d : DocRow) :
    jobWriteProgresses (processNextDocument env c d).trace
      = jobWriteProgresses (processDocumentSync env (jobOf c d)).trace := by
  rw [processNextDocument_trace]
  cases hs : (processDocumentSync env (jobOf c d)).success <;>
    simp [hs, jwp_append, jwp_cons_docStatus, jwp_cons_cleanup, jwp_nil,
      jwp_singleton_docStatus]

theorem anyDW_block (env : Env) (c : Nat) (d : DocRow) (p : Nat) :
    (processNextDocument env c d).trace.any (docWriteAtEvent d.id p)
      = (processDocumentSync env (jobOf c d)).trace.any (docWriteAtEvent d.id p) := by
  rw [processNextDocument_trace]
  cases hs : (processDocumentSync env (jobOf c d)).success <;>
    simp [hs, List.any_append, List.any_cons, dwa_docStatus, dwa_cleanup]

theorem anyPush_block (env : Env) (c : Nat) (d : DocRow) (p : Nat) :
    (processNextDocument env c d).trace.any (pushAtEvent p)
      = (processDocumentSync env (jobOf c d)).trace.any (pushAtEvent p) := by
  rw [processNextDocument_trace]
  cases hs : (processDocumentSync env (jobOf c d)).success <;>
    simp [hs, List.any_append, List.any_cons, pae_docStatus, pae_cleanup]

/-- Claim C7 (amended): with both progress records present, every
progress value the job-scoped view records other than 10 is also
recorded in the document-scoped view and pushed to the live-update
sink; the 10 percent checkpoint is the exception, writing only the
job-scoped record and pushing nothing. -/
theorem checkpointWritesBothViews (env : Env) (c : Nat) (d : DocRow)
    (hJ : env.jobRecordExists = true) (hD : env.docRecordExists = true) :
    (∀ p ∈ jobWriteProgresses (processNextDocument env c d).trace, p ≠ 10 →
        hasDocWriteAt (processNextDocument env c d).trace d.id p = true
        ∧ hasPushAt (processNextDocument env c d).trace p = true)
    ∧ hasDocWriteAt (processNextDocument env c d).trace d.id 10 = false
    ∧ hasPushAt (processNextDocument env c d).trace 10 = false := by
  have hid : (jobOf c d).docId = d.id := rfl
  refine ⟨?_, ?_, ?_⟩
  · intro p hp hne
    rw [jwp_block] at hp
    have hpair := pairedWrites_sync env (jobOf c d) hD p hp hne
    rw [hid] at hpair
    exact ⟨by rw [hasDocWriteAt, anyDW_block]; exact hpair.1,
           by rw [hasPushAt, anyPush_block]; exact hpair.2⟩
  · rw [hasDocWriteAt, anyDW_block]
    have := noDocWriteAt10_sync env (jobOf c d)
    rwa [hid] at this
  · rw [hasPushAt, anyPush_block]
    exact noPushAt10_sync env (jobOf c d)

/-- Claim C7, counterexample to the claim as stated: on a fully
successful run the 10 percent checkpoint records only the job-scoped
view; there is no document-scoped write and no push at progress 10. -/
theorem checkpointTenOnlyJobView :
    ((processNextDocument envAllOk 0 docPdf).trace.any
        (fun e => e == Event.jobRecord 0 10 "running" Option.none)) = true
    ∧ hasDocWriteAt (processNextDocument envAllOk 0 docPdf).trace "d1" 10 = false
    ∧ hasPushAt (processNextDocument envAllOk 0 docPdf).trace 10 = false := by
  decide

/-! ## C4 and C8: the finalize metadata merge -/

theorem formattedMetadata_keys (em : PyDict) (jobId : Nat) (now : String) (g a : Nat) :
    (formattedMetadata em jobId now g a).map Prod.fst = formattedKeys := rfl

theorem lookup_append_of_not_key (k : String) (upd base : PyDict)
    (h : k ∉ upd.map Prod.fst) : List.lookup k (upd ++ base) = List.lookup k base := by
  induction upd with
  | nil => rfl
  | cons e rest ih =>
    obtain ⟨ek, ev⟩ := e
    rw [List.map_cons, List.mem_cons] at h
    push_neg at h
    have hbeq : (k == ek) = false := by
      simp only [beq_eq_false_iff_ne, ne_eq]
      simpa using h.1
    rw [List.cons_append]
    simp only [List.lookup, hbeq]
    exact ih h.2

@[simp] theorem finishRun_extractedMeta (env : Env) (job : ProcessingJob) (tr : List Event)
    (fm : PyDict) (g a : Nat) : (finishRun env job tr fm g a).extractedMeta = some fm := by
  unfold finishRun
  split <;> rfl

@[simp] theorem finishRun_finalMeta_some (env : Env) (job : ProcessingJob) (tr : List Event)
    (fm : PyDict) (g a : Nat) (existing : PyDict) (hdoc : env.document = some existing) :
    (finishRun env job tr fm g a).finalMeta
      = some (pyUpdate existing (formattedMetadata fm job.jobId env.now g a)) := by
  unfold finishRun
  rw [hdoc]

theorem finalMeta_shape (env : Env) (job : ProcessingJob) (existing : PyDict)
    (hdoc : env.document = some existing)
    (h : (processDocumentSync env job).success = true) :
    ∃ em g a, (processDocumentSync env job).extractedMeta = some em
      ∧ (processDocumentSync env job).finalMeta
          = some (pyUpdate existing (formattedMetadata em job.jobId env.now g a)) := by
  revert h
  simp only [processDocumentSync, pyUpdate_isEmpty_collapse]
  repeat' split
  all_goals
    intro h
  all_goals
    first
    | (exfalso; revert h; simp; done)
    | (exact ⟨_, _, _, finishRun_extractedMeta _ _ _ _ _ _,
        finishRun_finalMeta_some _ _ _ _ _ _ existing hdoc⟩)

/-- Claim C4: on a successful run that finds the document row, the
finalize merge is non-destructive outside the fixed set of keys the
run writes: every key not produced by the run (a stored content hash,
for instance) keeps exactly its previous value, also on
re-processing. -/
theorem nonDestructiveMerge (env : Env) (c : Nat) (d : DocRow) (existing : PyDict)
    (hdoc : env.document = some existing)
    (hs : (processNextDocument env c d).success = true) :
    ∃ fm, (processNextDocument env c d).finalMeta = some fm
      ∧ ∀ k, k ∉ formattedKeys → List.lookup k fm = List.lookup k existing := by
  rw [processNextDocument_success] at hs
  obtain ⟨em, g, a, _, hfm⟩ := finalMeta_shape env (jobOf c d) existing hdoc hs
  rw [processNextDocument_finalMeta]
  refine ⟨_, hfm, ?_⟩
  intro k hk
  rw [pyUpdate]
  apply lookup_append_of_not_key
  rw [formattedMetadata_keys]
  exact hk

/-- Claim C8: the finalize merge writes the full fixed key set
unconditionally: every formatted key is present in the merged map
(eleven fixed keys plus title and friends), a previously stored title
is overwritten with null when this run's extraction produced none, and
only keys outside the fixed set keep their stored value. -/
theorem formattedKeysOverwriteStored (env : Env) (c : Nat) (d : DocRow) (existing : PyDict)
    (hdoc : env.document = some existing)
    (hs : (processNextDocument env c d).success = true) :
    ∃ em fm, (processNextDocument env c d).extractedMeta = some em
      ∧ (processNextDocument env c d).finalMeta = some fm
      ∧ (∀ k ∈ formattedKeys, List.lookup k fm ≠ Option.none)
      ∧ (dictGet em "title" = PyVal.none → List.lookup "title" fm = some PyVal.none)
      ∧ (∀ k, k ∉ formattedKeys → List.lookup k fm = List.lookup k existing) := by
  rw [processNextDocument_success] at hs
  obtain ⟨em, g, a, hem, hfm⟩ := finalMeta_shape env (jobOf c d) existing hdoc hs
  rw [processNextDocument_finalMeta, processNextDocument_extractedMeta]
  refine ⟨em, _, hem, hfm, ?_, ?_, ?_⟩
  · intro k hk
    rw [pyUpdate]
    fin_cases hk <;> simp [formattedMetadata, List.lookup]
  · intro htitle
    rw [pyUpdate]
    show List.lookup "title" (formattedMetadata em (jobOf c d).jobId env.now g a ++ existing)
      = some PyVal.none
    rw [formattedMetadata]
    simp [List.lookup, htitle]
  · intro k hk
    rw [pyUpdate]
    apply lookup_append_of_not_key
    rw [formattedMetadata_keys]
    exact hk

/-! ## C5: empty conversion output -/

theorem emptyMsg_ne_unsupportedMsg (name : String) :
    ("Processing failed: "
        ++ ("Document processing produced empty markdown content for " ++ name))
      ≠ ("Processing failed: " ++ ("Unsupported file format: " ++ name)) := by
  intro h
  have hl := congrArg String.length h
  rw [String.length_append, String.length_append, String.length_append,
    String.length_append] at hl
  have e1 : "Document processing produced empty markdown content for ".length = 56 := by
    decide
  have e2 : "Unsupported file format: ".length = 25 := by decide
  omega

/-- Claim C5: a run whose format-appropriate conversion yields empty
normalized text fails terminally right after conversion, with the
empty-content error (distinct from the unsupported-format error), and
without any post-conversion event: no artifact save, no chunking, no
embedding, no index write, no finalize merge. -/
theorem emptyConversionFails (env : Env) (c : Nat) (d : DocRow) (fmt : DocFormat)
    (t0 : String) (em : PyDict)
    (hfmt : dispatchFormat d.filename = some fmt)
    (hinit : extractInitialText env fmt = Except.ok t0)
    (hmeta : env.extractMeta t0 = Except.ok em)
    (hconv : env.convert fmt (effectiveContent env) = Except.ok "") :
    (processNextDocument env c d).success = false
    ∧ (processNextDocument env c d).errorMsg
        = some ("Processing failed: "
            ++ ("Document processing produced empty markdown content for " ++ d.filename))
    ∧ (processNextDocument env c d).errorMsg
        ≠ some ("Processing failed: " ++ ("Unsupported file format: " ++ d.filename))
    ∧ ∀ e ∈ (processNextDocument env c d).trace, isPostConversionEvent e = false := by
  have hfmt2 : dispatchFormat (jobOf c d).originalFilename = some fmt := hfmt
  have hmsg : (processNextDocument env c d).errorMsg
      = some ("Processing failed: "
          ++ ("Document processing produced empty markdown content for " ++ d.filename)) := by
    rw [processNextDocument_errorMsg]
    simp only [processDocumentSync, hfmt2, hinit, hmeta, hconv, eq_self_iff_true, if_true,
      pipelineFail_errorMsg]
    rfl
  refine ⟨?_, hmsg, ?_, ?_⟩
  · rw [processNextDocument_success]
    simp only [processDocumentSync, hfmt2, hinit, hmeta, hconv, eq_self_iff_true, if_true,
      pipelineFail_success]
  · rw [hmsg]
    intro hcontra
    exact emptyMsg_ne_unsupportedMsg d.filename (Option.some.inj hcontra)
  · have hbulk : (processNextDocument env c d).trace.all noLaterEvent = true := by
      rw [processNextDocument_trace]
      simp only [processDocumentSync, hfmt2, hinit, hmeta, hconv, eq_self_iff_true, if_true,
        pipelineFail_success, pipelineFail_trace, Bool.false_eq_true, if_false]
      cases hse : env.stagedExists <;>
        simp [hse, List.all_append, List.all_cons, all_noLater_updateJob,
          all_noLater_updateDoc, noLaterEvent, isEmbedComputation, isIndexWrite,
          isPostConversionEvent]
    intro e he
    have := List.all_eq_true.mp hbulk e he
    revert this
    cases e <;>
      simp [noLaterEvent, isEmbedComputation, isIndexWrite, isPostConversionEvent]

/-! ## C10: a pre-existing staged file wins -/

theorem all_noCopy_updateJob (env : Env) (j p : Nat) (s : String) (m : Option String) :
    (updateJobProgressSync env j p s m).all noCopyEvent = true := by
  unfold updateJobProgressSync
  split <;> simp [noCopyEvent]

theorem all_noCopy_updateDoc (env : Env) (d : String) (u p : Nat) (s : String)
    (m : Option String) :
    (updateDocumentProgressSync env d u p s m).all noCopyEvent = true := by
  unfold updateDocumentProgressSync sendProgressUpdateSync
  split <;> simp [noCopyEvent]

theorem all_noCopy_pipelineFail (env : Env) (job : ProcessingJob) (tr : List Event)
    (e : String) : (pipelineFail env job tr e).trace.all noCopyEvent = tr.all noCopyEvent := by
  simp only [pipelineFail, List.all_append, all_noCopy_updateJob, all_noCopy_updateDoc,
    Bool.and_true]

theorem all_noCopy_finishRun (env : Env) (job : ProcessingJob) (tr : List Event)
    (fm : PyDict) (g a : Nat) :
    (finishRun env job tr fm g a).trace.all noCopyEvent = tr.all noCopyEvent := by
  unfold finishRun
  split <;>
    simp only [List.all_append, List.all_cons, List.all_nil, all_noCopy_updateJob,
      all_noCopy_updateDoc, noCopyEvent, Bool.and_true]

theorem all_noCopy_sync (env : Env) (job : ProcessingJob) (hst : env.stagedExists = true) :
    (processDocumentSync env job).trace.all noCopyEvent = true := by
  simp only [processDocumentSync, pyUpdate_isEmpty_collapse]
  repeat' split
  all_goals
    first
    | contradiction
    | (simp only [all_noCopy_pipelineFail, all_noCopy_finishRun, List.all_append,
        List.all_cons, List.all_nil, all_noCopy_updateJob, all_noCopy_updateDoc, noCopyEvent,
        Bool.and_true, Bool.and_self, hst, if_true]
       done)

theorem all_noCopy_block (env : Env) (c : Nat) (d : DocRow) (hst : env.stagedExists = true) :
    (processNextDocument env c d).trace.all noCopyEvent = true := by
  rw [processNextDocument_trace]
  cases hs : (processDocumentSync env (jobOf c d)).success <;>
    simp only [hs, List.all_cons, List.all_append, List.all_nil,
      all_noCopy_sync env (jobOf c d) hst, noCopyEvent, Bool.and_true, Bool.true_and,
      if_true, if_false, Bool.false_eq_true, Bool.and_self]

/-- Claim C10: when a file already sits at the canonical staged path,
the materialize stage skips the copy (no copy event at all) and the
remaining stages read that pre-existing file: conversion is applied to
the staged content and its output is what the run saves as normalized
text. -/
theorem preExistingStagedFileWins (env : Env) (c : Nat) (d : DocRow) (fmt : DocFormat)
    (m t0 : String) (em : PyDict)
    (hfmt : dispatchFormat d.filename = some fmt)
    (hstaged : env.stagedExists = true)
    (hinit : extractInitialText env fmt = Except.ok t0)
    (hmeta : env.extractMeta t0 = Except.ok em)
    (hconv : env.convert fmt env.stagedContent = Except.ok m)
    (hm : m ≠ "") :
    (∀ s t, Event.copyFile s t ∉ (processNextDocument env c d).trace)
    ∧ Event.saveMarkdown (d.id ++ ".md") m ∈ (processNextDocument env c d).trace := by
  have hfmt2 : dispatchFormat (jobOf c d).originalFilename = some fmt := hfmt
  have heff : effectiveContent env = env.stagedContent := by
    rw [effectiveContent, hstaged]
    simp
  have hconv2 : env.convert fmt (effectiveContent env) = Except.ok m := by
    rw [heff]
    exact hconv
  constructor
  · intro s t hmem
    have := List.all_eq_true.mp (all_noCopy_block env c d hstaged) _ hmem
    simp [noCopyEvent] at this
  · rw [processNextDocument_trace]
    refine List.mem_append_left _ (List.mem_append_left _ (List.mem_cons_of_mem _ ?_))
    simp only [processDocumentSync, hfmt2, hinit, hmeta, hconv2, hstaged, if_true,
      pyUpdate_isEmpty_collapse]
    rw [if_neg hm]
    repeat' split
    all_goals
      simp [pipelineFail_trace, finishRun, List.mem_append, jobOf]
    all_goals
      repeat' split
    all_goals
      simp [List.mem_append]

/-! ## Witnesses -/

/-- Witness for C1 at a concrete drain of one queued pdf document. -/
theorem atMostOneRunning_witness :
    (drainQueue (fun _ => envAllOk) 0 [docPdf]).take 3
        <+: drainQueue (fun _ => envAllOk) 0 [docPdf]
    ∧ 0 ∈ runningJobs ((drainQueue (fun _ => envAllOk) 0 [docPdf]).take 3)
    ∧ 0 = 0 :=
  ⟨⟨_, List.take_append_drop 3 (drainQueue (fun _ => envAllOk) 0 [docPdf])⟩, by decide,
   atMostOneRunning (fun _ => envAllOk) [docPdf] 0
     ((drainQueue (fun _ => envAllOk) 0 [docPdf]).take 3)
     ⟨_, List.take_append_drop 3 (drainQueue (fun _ => envAllOk) 0 [docPdf])⟩
     0 (by decide) 0 (by decide)⟩

/-- Witness for C2 at a concrete job with extension xyz. -/
theorem unsupportedExtensionFails_witness :
    fileExt docBadExt.filename ∉ ["pdf", "doc", "docx", "md", "markdown"]
    ∧ (processNextDocument envAllOk 0 docBadExt).success = false :=
  ⟨by decide, (unsupportedExtensionFails envAllOk 0 docBadExt (by decide)).1⟩

/-- Witness for C3 at a concrete successful run. -/
theorem progressWriteSequence_witness :
    envAllOk.jobRecordExists = true ∧ envAllOk.docRecordExists = true
    ∧ ((processNextDocument envAllOk 0 docPdf).success = false →
        [("failed", 0), ("failed", 0), ("failed", 100)]
          <:+ statusProgressWrites (processNextDocument envAllOk 0 docPdf).trace) :=
  ⟨by decide, by decide, (progressWriteSequence envAllOk 0 docPdf (by decide) (by decide)).2⟩

/-- Witness for C4 at a concrete run over a document that already
carries a file hash. -/
theorem nonDestructiveMerge_witness :
    envAllOk.document = some [("file_hash", PyVal.str "h123"), ("title", PyVal.str "Old")]
    ∧ (processNextDocument envAllOk 0 docPdf).success = true
    ∧ ∃ fm, (processNextDocument envAllOk 0 docPdf).finalMeta = some fm
        ∧ ∀ k, k ∉ formattedKeys → List.lookup k fm
            = List.lookup k [("file_hash", PyVal.str "h123"), ("title", PyVal.str "Old")] :=
  ⟨by decide, by decide,
   nonDestructiveMerge envAllOk 0 docPdf _ (by decide) (by decide)⟩

/-- Witness for C5 at a concrete pdf job whose conversion output is
empty. -/
theorem emptyConversionFails_witness :
    dispatchFormat docPdf.filename = some DocFormat.pdf
    ∧ envEmptyMd.convert DocFormat.pdf (effectiveContent envEmptyMd) = Except.ok ""
    ∧ (processNextDocument envEmptyMd 0 docPdf).success = false :=
  ⟨by decide, rfl,
   (emptyConversionFails envEmptyMd 0 docPdf DocFormat.pdf "head" [("title", PyVal.str "T")]
     (by decide) rfl rfl rfl).1⟩

/-- Witness for C6 at a concrete run: the three-event prefix of the
trace contains a stage event, hence the committed claim write. -/
theorem claimCommittedBeforeStages_witness :
    ((processNextDocument envAllOk 0 docPdf).trace.take 3
        <+: (processNextDocument envAllOk 0 docPdf).trace)
    ∧ Event.docStatus "d1" "processing" 0 Option.none
        ∈ (processNextDocument envAllOk 0 docPdf).trace.take 3 :=
  ⟨⟨_, List.take_append_drop _ _⟩,
   (claimCommittedBeforeStages envAllOk 0 docPdf).2 _ ⟨_, List.take_append_drop _ _⟩
     ⟨Event.jobRecord 0 0 "running" Option.none, by decide, by decide⟩⟩

/-- Witness for C7 at a concrete successful run. -/
theorem checkpointWritesBothViews_witness :
    envAllOk.jobRecordExists = true ∧ envAllOk.docRecordExists = true
    ∧ hasDocWriteAt (processNextDocument envAllOk 0 docPdf).trace docPdf.id 10 = false :=
  ⟨by decide, by decide,
   (checkpointWritesBothViews envAllOk 0 docPdf (by decide) (by decide)).2.1⟩

/-- Witness for C8 at the concrete run of `nonDestructiveMerge_witness`:
the stored title is overwritten although extraction found one here. -/
theorem formattedKeysOverwriteStored_witness :
    envAllOk.document = some [("file_hash", PyVal.str "h123"), ("title", PyVal.str "Old")]
    ∧ (processNextDocument envAllOk 0 docPdf).success = true
    ∧ ∃ em fm, (processNextDocument envAllOk 0 docPdf).extractedMeta = some em
        ∧ (processNextDocument envAllOk 0 docPdf).finalMeta = some fm
        ∧ (∀ k ∈ formattedKeys, List.lookup k fm ≠ Option.none)
        ∧ (dictGet em "title" = PyVal.none → List.lookup "title" fm = some PyVal.none)
        ∧ (∀ k, k ∉ formattedKeys → List.lookup k fm
            = List.lookup k [("file_hash", PyVal.str "h123"), ("title", PyVal.str "Old")]) :=
  ⟨by decide, by decide,
   formattedKeysOverwriteStored envAllOk 0 docPdf _ (by decide) (by decide)⟩

/-- Witness for C9 at a concrete push of a concrete run. -/
theorem pushesAreDocumentScoped_witness :
    Event.push 7 pushD1At0 ∈ (processNextDocument envAllOk 0 docPdf).trace
    ∧ pushD1At0.ptype = "document_progress" :=
  ⟨by decide,
   pushesAreDocumentScoped envAllOk 0 docPdf 7 pushD1At0 (by decide)⟩

/-- Witness for C10 at a concrete run with a pre-existing staged
file. -/
theorem preExistingStagedFileWins_witness :
    envStaged.stagedExists = true
    ∧ envStaged.convert DocFormat.pdf envStaged.stagedContent = Except.ok "md:S"
    ∧ Event.saveMarkdown (docPdf.id ++ ".md") "md:S"
        ∈ (processNextDocument envStaged 0 docPdf).trace :=
  ⟨by decide, rfl,
   (preExistingStagedFileWins envStaged 0 docPdf DocFormat.pdf "md:S" "head"
     [("title", PyVal.str "T")] (by decide) (by decide) rfl rfl rfl
     (by decide)).2⟩
